import Mathlib

/-!
Shallow embedding of `katatachi`'s `TwitterMediaScraper`
(`src/katatachi/contrib/worker/twitter_media_scraper.py`).

The worker is a pipeline source with two lifecycle entry points that this
development models:

* `process`   (lines 60-127): availability probe, cursor bootstrap, cursor
  validation, binary fetch-window selection, empty-fetch short-circuit, and
  the extraction loop;
* `post_process` (lines 129-140): cursor advancement from the output set.

External collaborators are modelled as follows.

* The Twitter gateway is an oracle `Env` with one function per API surface
  used by the code: `GetUserTimeline(screen_name, since_id?, count)` (the
  screen name is fixed for a worker instance, so it is dropped) and
  `GetStatus(id)`.  Each call either returns a value or raises a
  `twitter.error.TwitterError`, modelled as `Except TwErr _`.
* The metadata store is used with the single key `since_id`; its state is
  the `since_id` field of `Stores` (`none` = key absent).  `exists` is
  `Option.isSome`, `get` reads the value, `set` replaces it.  The content
  store (document sink) is the `sink` field; the scraper never writes to it,
  and the model reflects that.
* The four abstract extraction hooks of the class are the fields of
  `Scraper`.  `extract_media` and `media_list_to_documents` may raise
  (Python methods are unchecked), modelled as `Except String _`;
  `document_to_id` and `document_to_created_at_in_seconds` are used as the
  pure functions their type hints declare.

Python-specific behaviour embedded explicitly:

* `max(xs, key=k)` returns the FIRST element attaining the maximal key
  (`pyMaxBy`);
* `int(s)` on a string accepts optional surrounding whitespace, an optional
  sign and a nonempty digit run, and raises `ValueError` otherwise
  (`pyInt`, returning `Option Int`; `none` = `ValueError`);
* the authorization check is the literal substring test
  `"not authorized" in str(te).lower()` (`isNotAuthorized`);
* `str(n)` on an int is `toString`; `str(s)` on a str is the identity.
-/

/-- One raw upstream item (`twitter.models.Status`).  The scraper reads only
its `id` attribute (the intrinsic ordinal), so the model carries only that. -/
structure Status where
  id : Int
deriving DecidableEq

/-- A `twitter.error.TwitterError`, identified by its message string
(`str(te)` is all the code inspects). -/
structure TwErr where
  msg : String
deriving DecidableEq

/-- The ways one run of `process` can terminate with an exception. -/
inductive RunErr where
  /-- an uncaught (re-raised) `twitter.error.TwitterError` -/
  | twitter (e : TwErr)
  /-- the `RuntimeError` raised when the bootstrap fetch returns no tweets -/
  | bootstrapEmpty
  /-- the `ValueError` raised by `int(...)` on the stored cursor string -/
  | parseFailure (s : String)
  /-- an exception escaping one of the abstract extraction hooks -/
  | extractionError (msg : String)
deriving DecidableEq

/-- The abstract extraction hooks of `TwitterMediaScraper` (its four
`@abstractmethod`s), over a media type `M` and a document type `D`. -/
structure Scraper (M D : Type) where
  extract_media : Status → Except String (List M)
  media_list_to_documents : List M → Except String (List D)
  document_to_id : D → String
  document_to_created_at_in_seconds : D → Int

/-- The Twitter gateway oracle for one worker identity.  `getUserTimeline
sinceId count` models `GetUserTimeline(screen_name=..., since_id?, count)`;
`getStatus n` models `GetStatus(n)`. -/
structure Env where
  getUserTimeline : Option Int → Nat → Except TwErr (List Status)
  getStatus : Int → Except TwErr Status

/-- The durable state a run can observe or mutate: the metadata store's
`since_id` key (`none` = absent) and the content store (document sink). -/
structure Stores (D : Type) where
  since_id : Option String
  sink : List D
deriving DecidableEq

/-- Contiguous-prefix test on character lists. -/
def charsPrefix : List Char → List Char → Bool
  | [], _ => true
  | _ :: _, [] => false
  | a :: as, b :: bs => a == b && charsPrefix as bs

/-- Contiguous-substring test on character lists (Python's `in` on `str`). -/
def charsContain (needle : List Char) : List Char → Bool
  | [] => needle.isEmpty
  | c :: cs => charsPrefix needle (c :: cs) || charsContain needle cs

/-- ASCII lowering of one character (the fragment of Python's `str.lower`
relevant to the `"not authorized"` membership test). -/
def toLowerCh (c : Char) : Char :=
  if 65 ≤ c.toNat ∧ c.toNat ≤ 90 then Char.ofNat (c.toNat + 32) else c

/-- The authorization-class test from `process` line 67:
`"not authorized" in str(te).lower()`. -/
def isNotAuthorized (te : TwErr) : Bool :=
  charsContain ("not authorized".toList) ((te.msg.toList).map toLowerCh)

/-- Value of a nonempty decimal digit run. -/
def digitsVal (cs : List Char) : Nat :=
  cs.foldl (fun a c => a * 10 + (c.toNat - 48)) 0

/-- Whitespace test used by Python's `int(...)` argument stripping. -/
def isSpaceCh (c : Char) : Bool :=
  c == ' ' || c == '\t' || c == '\n' || c == '\r'

/-- Strip leading and trailing whitespace from a character list. -/
def stripChars (cs : List Char) : List Char :=
  ((cs.dropWhile isSpaceCh).reverse.dropWhile isSpaceCh).reverse

/-- Python `int(s)` on a string: optional surrounding whitespace, optional
sign, nonempty digit run; `none` models the `ValueError` raised otherwise. -/
def pyInt (s : String) : Option Int :=
  match stripChars s.toList with
  | [] => none
  | c :: rest =>
    if c = '-' then
      if rest ≠ [] ∧ rest.all Char.isDigit then some (-(digitsVal rest : Int)) else none
    else if c = '+' then
      if rest ≠ [] ∧ rest.all Char.isDigit then some ((digitsVal rest : Int)) else none
    else if (c :: rest).all Char.isDigit then some ((digitsVal (c :: rest) : Int)) else none

/-- Python `max(best :: xs, key=key)`: scans left to right and replaces the
running best only on a STRICTLY larger key, so ties keep the earlier
element. -/
def pyMaxBy (key : α → Int) : α → List α → α
  | best, [] => best
  | best, x :: xs => pyMaxBy key (if key best < key x then x else best) xs

/-- The extraction loop of `process` lines 122-126: for each tweet run
`extract_media` then `media_list_to_documents`, appending to the
accumulated document list; any exception escaping a hook aborts the loop. -/
def extractAll (sc : Scraper M D) : List Status → List D → Except RunErr (List D)
  | [], acc => Except.ok acc
  | t :: ts, acc =>
    match sc.extract_media t with
    | Except.error e => Except.error (RunErr.extractionError e)
    | Except.ok media =>
      match sc.media_list_to_documents media with
      | Except.error e => Except.error (RunErr.extractionError e)
      | Except.ok docs => extractAll sc ts (acc ++ docs)

/-- Lines 116-127 of `process`: given the outcome of the selected fetch
window, short-circuit on an empty result, otherwise run the extraction
loop.  An error from the fetch call itself propagates (it is not wrapped
in any `try`). -/
def processTweets (sc : Scraper M D) (st1 : Stores D)
    (fetched : Except TwErr (List Status)) : Except RunErr (List D) × Stores D :=
  match fetched with
  | Except.error te => (Except.error (RunErr.twitter te), st1)
  | Except.ok tweets =>
    if tweets.isEmpty then (Except.ok [], st1)
    else
      match extractAll sc tweets [] with
      | Except.error e => (Except.error e, st1)
      | Except.ok docs => (Except.ok docs, st1)

/-- Lines 91-114 of `process`: validate the parsed cursor with a point
lookup (`GetStatus`); on success fetch the since-window
(`since_id=cursor, count=200`), on any `TwitterError` fall back to the
recent window (`count=200`). -/
def processWithSince (sc : Scraper M D) (env : Env) (st1 : Stores D)
    (since_id : Int) : Except RunErr (List D) × Stores D :=
  match env.getStatus since_id with
  | Except.ok _ => processTweets sc st1 (env.getUserTimeline (some since_id) 200)
  | Except.error _ => processTweets sc st1 (env.getUserTimeline none 200)

/-- Line 89 onward of `process`: read the stored cursor, parse it with
`int(...)` (a `ValueError` is fatal), then validate and fetch. -/
def processStored (sc : Scraper M D) (env : Env) (st1 : Stores D) :
    Except RunErr (List D) × Stores D :=
  match pyInt (st1.since_id.getD "") with
  | none => (Except.error (RunErr.parseFailure (st1.since_id.getD "")), st1)
  | some since_id => processWithSince sc env st1 since_id

/-- `TwitterMediaScraper.process` (lines 60-127): availability probe
(`GetUserTimeline(count=1)` with the authorization-skip handler), cursor
bootstrap when the `since_id` key is absent (a second
`GetUserTimeline(count=1)`, fatal `RuntimeError` on an empty result,
otherwise `set(since_id, str(max(init_tweets, key=id).id))`), then the
stored-cursor path. -/
def process (sc : Scraper M D) (env : Env) (st : Stores D) :
    Except RunErr (List D) × Stores D :=
  match env.getUserTimeline none 1 with
  | Except.error te =>
    if isNotAuthorized te then (Except.ok [], st)
    else (Except.error (RunErr.twitter te), st)
  | Except.ok _ =>
    if st.since_id.isSome then
      processStored sc env st
    else
      match env.getUserTimeline none 1 with
      | Except.error te => (Except.error (RunErr.twitter te), st)
      | Except.ok [] => (Except.error RunErr.bootstrapEmpty, st)
      | Except.ok (t :: ts) =>
        processStored sc env
          { st with since_id := some (toString ((pyMaxBy Status.id t ts).id)) }

/-- `TwitterMediaScraper.post_process` (lines 129-140): if the run produced
no documents, return without touching anything; otherwise store
`str(document_to_id(max(docs, key=document_to_created_at_in_seconds)))`
under the `since_id` key (`str` on the hook's string result is the
identity). -/
def post_process (sc : Scraper M D) (st : Stores D)
    (processed_documents : List D) : Stores D :=
  match processed_documents with
  | [] => st
  | d :: ds =>
    { st with
      since_id :=
        some (sc.document_to_id (pyMaxBy sc.document_to_created_at_in_seconds d ds)) }

/-!
Concrete fixtures used by counterexamples and witnesses.  `Doc0` is a
minimal document shape for a concrete subclass of the scraper: a payload
string, the originating tweet ordinal and a creation timestamp.
-/

/-- A concrete document: payload, originating tweet ordinal, timestamp. -/
structure Doc0 where
  url : String
  tid : Int
  ts : Int
deriving DecidableEq

/-- A well-behaved concrete subclass: every tweet yields one document whose
identifier is the tweet's ordinal and whose timestamp equals the ordinal. -/
def scSimple : Scraper Doc0 Doc0 where
  extract_media t := Except.ok [{ url := ("u"), tid := t.id, ts := t.id }]
  media_list_to_documents ms := Except.ok ms
  document_to_id d := toString d.tid
  document_to_created_at_in_seconds d := d.ts

/-- A subclass whose `extract_media` raises on the tweet with ordinal 1 and
succeeds on every other tweet. -/
def scBadItem : Scraper Doc0 Doc0 where
  extract_media t :=
    if t.id = 1 then Except.error ("malformed entities")
    else Except.ok [{ url := ("u"), tid := t.id, ts := t.id }]
  media_list_to_documents ms := Except.ok ms
  document_to_id d := toString d.tid
  document_to_created_at_in_seconds d := d.ts

/-- A subclass whose `document_to_id` returns the payload string, which need
not be a decimal-integer string. -/
def scBadId : Scraper Doc0 Doc0 where
  extract_media t := Except.ok [{ url := ("u"), tid := t.id, ts := t.id }]
  media_list_to_documents ms := Except.ok ms
  document_to_id d := d.url
  document_to_created_at_in_seconds d := d.ts

/-- Gateway where every timeline call raises an authorization error. -/
def envAuthErr : Env where
  getUserTimeline _ _ :=
    Except.error { msg := ("Sorry, you are not authorized to see this status.") }
  getStatus _ :=
    Except.error { msg := ("Sorry, you are not authorized to see this status.") }

/-- Gateway where every timeline call raises a non-authorization error. -/
def envOtherErr : Env where
  getUserTimeline _ _ := Except.error { msg := ("Rate limit exceeded") }
  getStatus _ := Except.error { msg := ("Rate limit exceeded") }

/-- Gateway for the stale-cursor fallback: the probe and the recent window
return the single tweet 400, and every point lookup fails (the cursor's
tweet no longer resolves). -/
def envC1x : Env where
  getUserTimeline sinceId _ :=
    match sinceId with
    | some _ => Except.ok []
    | none => Except.ok [{ id := 400 }]
  getStatus _ := Except.error { msg := ("No status found with that ID.") }

/-- Gateway where the probe and bootstrap succeed with tweet 100, point
lookups succeed, but the since-window fetch raises. -/
def envC6x : Env where
  getUserTimeline sinceId _ :=
    match sinceId with
    | some _ => Except.error { msg := ("Over capacity") }
    | none => Except.ok [{ id := 100 }]
  getStatus n := Except.ok { id := n }

/-- Gateway where the probe and bootstrap succeed with tweet 100, point
lookups succeed, and the since-window fetch returns no tweets. -/
def envC7x : Env where
  getUserTimeline sinceId _ :=
    match sinceId with
    | some _ => Except.ok []
    | none => Except.ok [{ id := 100 }]
  getStatus n := Except.ok { id := n }

/-- Gateway where both fetch windows are empty but the one-item probe
succeeds with tweet 100; point lookups succeed. -/
def envEmptyWin : Env where
  getUserTimeline sinceId count :=
    match sinceId with
    | some _ => Except.ok []
    | none => if count = 1 then Except.ok [{ id := 100 }] else Except.ok []
  getStatus n := Except.ok { id := n }

/-- Gateway with a live cursor: probe returns tweet 500, point lookups
succeed, the since window returns tweet 501 and the recent window tweet
502. -/
def envLive : Env where
  getUserTimeline sinceId count :=
    match sinceId with
    | some _ => Except.ok [{ id := 501 }]
    | none => if count = 1 then Except.ok [{ id := 500 }] else Except.ok [{ id := 502 }]
  getStatus n := Except.ok { id := n }

/-- Gateway with a stale cursor: same windows as `envLive` but every point
lookup fails. -/
def envStaleC : Env where
  getUserTimeline sinceId count :=
    match sinceId with
    | some _ => Except.ok [{ id := 501 }]
    | none => if count = 1 then Except.ok [{ id := 500 }] else Except.ok [{ id := 502 }]
  getStatus _ := Except.error { msg := ("No status found with that ID.") }

/-- Gateway whose since window returns tweets 1 and 2 in order; the probe
returns tweet 2 and point lookups succeed. -/
def envC9x : Env where
  getUserTimeline sinceId _ :=
    match sinceId with
    | some _ => Except.ok [{ id := 1 }, { id := 2 }]
    | none => Except.ok [{ id := 2 }]
  getStatus n := Except.ok { id := n }

/-- Gateway whose every timeline call returns no tweets; point lookups
succeed. -/
def envEmptyTL : Env where
  getUserTimeline _ _ := Except.ok []
  getStatus n := Except.ok { id := n }

/-- One iteration of the extraction loop (lines 124-125): `extract_media`
on one tweet followed by `media_list_to_documents`; an exception from
either hook escapes. -/
def extractOne (sc : Scraper M D) (t : Status) : Except String (List D) :=
  match sc.extract_media t with
  | Except.error e => Except.error e
  | Except.ok media => sc.media_list_to_documents media

/-- A subclass whose `extract_media` always succeeds but whose
`media_list_to_documents` raises whenever the media list contains an entry
with ordinal 1. -/
def scBadMedia : Scraper Doc0 Doc0 where
  extract_media t := Except.ok [{ url := ("u"), tid := t.id, ts := t.id }]
  media_list_to_documents ms :=
    if ms.any (fun m => m.tid == 1) then Except.error ("no media entities")
    else Except.ok ms
  document_to_id d := toString d.tid
  document_to_created_at_in_seconds d := d.ts

/-- Gateway with a stale cursor and an empty recent window: point lookups
fail, the one-item probe returns tweet 100, the recent window is empty and
the (unused) since window is nonempty. -/
def envStaleEmpty : Env where
  getUserTimeline sinceId count :=
    match sinceId with
    | some _ => Except.ok [{ id := 501 }]
    | none => if count = 1 then Except.ok [{ id := 100 }] else Except.ok []
  getStatus _ := Except.error { msg := ("No status found with that ID.") }

/-- Gateway whose since window returns tweets 2 then 1 in order; the probe
returns tweet 2 and point lookups succeed. -/
def envC9y : Env where
  getUserTimeline sinceId _ :=
    match sinceId with
    | some _ => Except.ok [{ id := 2 }, { id := 1 }]
    | none => Except.ok [{ id := 2 }]
  getStatus n := Except.ok { id := n }

/-- Gateway with a stale cursor whose recent window returns tweets 2 then 1
in order. -/
def envC9stale : Env where
  getUserTimeline sinceId count :=
    match sinceId with
    | some _ => Except.ok []
    | none =>
      if count = 1 then Except.ok [{ id := 2 }]
      else Except.ok [{ id := 2 }, { id := 1 }]
  getStatus _ := Except.error { msg := ("No status found with that ID.") }

/-!
Helper lemmas about the embedded operations.
-/

/-- Python's `max` returns an element of its argument list. -/
theorem pyMaxBy_mem (key : α → Int) (d : α) (ds : List α) :
    pyMaxBy key d ds ∈ d :: ds := by
  induction ds generalizing d with
  | nil => simp [pyMaxBy]
  | cons x xs ih =>
    simp only [pyMaxBy]
    rcases List.mem_cons.mp (ih (if key d < key x then x else d)) with h1 | h1
    · rw [h1]
      split
      · exact List.mem_cons_of_mem _ (List.mem_cons_self _ _)
      · exact List.mem_cons_self _ _
    · exact List.mem_cons_of_mem _ (List.mem_cons_of_mem _ h1)

/-- Python's `max` returns an element whose key is maximal in the list. -/
theorem pyMaxBy_le (key : α → Int) (d : α) (ds : List α) :
    ∀ x ∈ d :: ds, key x ≤ key (pyMaxBy key d ds) := by
  induction ds generalizing d with
  | nil =>
    intro x hx
    rcases List.mem_cons.mp hx with h | h
    · rw [h]
      simp [pyMaxBy]
    · exact absurd h (List.not_mem_nil _)
  | cons y ys ih =>
    intro x hx
    simp only [pyMaxBy]
    have hb : key d ≤ key (if key d < key y then y else d) ∧
        key y ≤ key (if key d < key y then y else d) := by
      by_cases h : key d < key y <;> simp [h] <;> omega
    have hbm : key (if key d < key y then y else d)
        ≤ key (pyMaxBy key (if key d < key y then y else d) ys) :=
      ih (if key d < key y then y else d) _ (List.mem_cons_self _ _)
    rcases List.mem_cons.mp hx with h | h
    · rw [h]
      exact le_trans hb.1 hbm
    · rcases List.mem_cons.mp h with h2 | h2
      · rw [h2]
        exact le_trans hb.2 hbm
      · exact ih (if key d < key y then y else d) _ (List.mem_cons_of_mem _ h2)

/-- Python's `max` returns the FIRST maximal element: the list splits
around the returned element and every earlier element has a strictly
smaller key. -/
theorem pyMaxBy_first (key : α → Int) (d : α) (ds : List α) :
    ∃ l1 l2, d :: ds = l1 ++ pyMaxBy key d ds :: l2 ∧
      ∀ x ∈ l1, key x < key (pyMaxBy key d ds) := by
  induction ds generalizing d with
  | nil =>
    refine ⟨[], [], rfl, ?_⟩
    intro x hx
    exact absurd hx (List.not_mem_nil _)
  | cons y ys ih =>
    simp only [pyMaxBy]
    by_cases h : key d < key y
    · simp only [if_pos h]
      rcases ih y with ⟨l1, l2, hsplit, hlt⟩
      refine ⟨d :: l1, l2, ?_, ?_⟩
      · rw [List.cons_append, ← hsplit]
      · intro x hx
        rcases List.mem_cons.mp hx with h1 | h1
        · have hym : key y ≤ key (pyMaxBy key y ys) :=
            pyMaxBy_le key y ys y (List.mem_cons_self _ _)
          rw [h1]
          omega
        · exact hlt _ h1
    · simp only [if_neg h]
      rcases ih d with ⟨l1, l2, hsplit, hlt⟩
      cases l1 with
      | nil =>
        simp only [List.nil_append] at hsplit
        injection hsplit with hd htl
        refine ⟨[], y :: ys, ?_, ?_⟩
        · rw [List.nil_append, ← hd]
        · intro x hx
          exact absurd hx (List.not_mem_nil _)
      | cons a l1' =>
        simp only [List.cons_append] at hsplit
        injection hsplit with hd htl
        subst hd
        refine ⟨d :: y :: l1', l2, ?_, ?_⟩
        · rw [List.cons_append, List.cons_append, ← htl]
        · intro x hx
          have hdlt : key d < key (pyMaxBy key d ys) :=
            hlt d (List.mem_cons_self _ _)
          rcases List.mem_cons.mp hx with h1 | h1
          · rw [h1]
            exact hdlt
          · rcases List.mem_cons.mp h1 with h2 | h2
            · rw [h2]
              omega
            · exact hlt _ (List.mem_cons_of_mem _ h2)

/-- The fetch-and-extract stage never writes to the stores. -/
theorem processTweets_state (sc : Scraper M D) (st1 : Stores D)
    (fetched : Except TwErr (List Status)) :
    (processTweets sc st1 fetched).2 = st1 := by
  cases fetched with
  | error te => rfl
  | ok tweets =>
    by_cases h : tweets.isEmpty
    · simp [processTweets, h]
    · cases hE : extractAll sc tweets [] <;> simp [processTweets, h, hE]

/-- The stored-cursor path (parse, validate, fetch, extract) never writes to
the stores. -/
theorem processStored_state (sc : Scraper M D) (env : Env) (st1 : Stores D) :
    (processStored sc env st1).2 = st1 := by
  unfold processStored
  cases hp : pyInt (st1.since_id.getD "") with
  | none => rfl
  | some n =>
    unfold processWithSince
    cases hs : env.getStatus n <;> simp [hs, processTweets_state]

/-!
Claim theorems.
-/

/-- C3: Availability-probe error taxonomy.  If the initial one-item probe
raises a `TwitterError`, then: when the message contains "not authorized"
(case-insensitively) the run returns an empty list with no exception and
the stores (hence the stored cursor) untouched; any other `TwitterError`
from the probe is re-raised as a fatal run failure, again with the stores
untouched. -/
theorem c3_probe_error_taxonomy (sc : Scraper M D) (env : Env) (st : Stores D)
    (te : TwErr) (h : env.getUserTimeline none 1 = Except.error te) :
    (isNotAuthorized te = true → process sc env st = (Except.ok [], st)) ∧
    (isNotAuthorized te = false →
      process sc env st = (Except.error (RunErr.twitter te), st)) := by
  unfold process
  rw [h]
  constructor <;> intro hb <;> simp [hb]

/-- Witness for C3: a concrete authorization-message probe failure yields an
empty successful result, and a concrete rate-limit probe failure is
re-raised; the stores are unchanged in both runs. -/
theorem c3_witness :
    process scSimple envAuthErr { since_id := some ("5"), sink := [] }
      = (Except.ok [], { since_id := some ("5"), sink := [] }) ∧
    process scSimple envOtherErr { since_id := some ("5"), sink := [] }
      = (Except.error (RunErr.twitter { msg := ("Rate limit exceeded") }),
         { since_id := some ("5"), sink := [] }) := by
  constructor
  · exact (c3_probe_error_taxonomy scSimple envAuthErr _ _ rfl).1 (by decide)
  · exact (c3_probe_error_taxonomy scSimple envOtherErr _ _ rfl).2 (by decide)

/-- C4: Fetch-window selection is binary and decided by cursor validation.
For a run with a stored, parseable cursor `n` and a successful probe: if
the point lookup `GetStatus n` succeeds, `process` continues with the
since-window fetch `GetUserTimeline(since_id=n, count=200)`; if the point
lookup raises, it continues with the recent window
`GetUserTimeline(count=200)` and the since window is not consulted. -/
theorem c4_fetch_window_selection (sc : Scraper M D) (env : Env) (st : Stores D)
    (s : String) (n : Int) (l : List Status)
    (hprobe : env.getUserTimeline none 1 = Except.ok l)
    (hst : st.since_id = some s)
    (hparse : pyInt s = some n) :
    (∀ stat, env.getStatus n = Except.ok stat →
      process sc env st = processTweets sc st (env.getUserTimeline (some n) 200)) ∧
    (∀ te, env.getStatus n = Except.error te →
      process sc env st = processTweets sc st (env.getUserTimeline none 200)) := by
  unfold process processStored
  rw [hprobe]
  simp only [hst, Option.isSome_some, Option.getD_some, if_true, hparse]
  unfold processWithSince
  constructor
  · intro stat hs
    rw [hs]
  · intro te hs
    rw [hs]

/-- Witness for C4: with stored cursor "500", a live point lookup makes the
run use the since window, and a failing point lookup makes it use the
recent window. -/
theorem c4_witness :
    process scSimple envLive { since_id := some ("500"), sink := [] }
      = processTweets scSimple { since_id := some ("500"), sink := [] }
          (envLive.getUserTimeline (some 500) 200) ∧
    process scSimple envStaleC { since_id := some ("500"), sink := [] }
      = processTweets scSimple { since_id := some ("500"), sink := [] }
          (envStaleC.getUserTimeline none 200) := by
  constructor
  · exact (c4_fetch_window_selection scSimple envLive _ ("500") 500 _ rfl rfl
      (by decide)).1 { id := 500 } rfl
  · exact (c4_fetch_window_selection scSimple envStaleC _ ("500") 500 _ rfl rfl
      (by decide)).2 { msg := ("No status found with that ID.") } rfl

/-- C5: Bootstrap behaviour.  On a run with no stored cursor and a
successful probe, the bootstrap stage fetches one item
(`GetUserTimeline(count=1)`); it raises the fatal `RuntimeError` exactly
when that fetch is empty, and otherwise stores the item's ordinal as a
string and only then continues into the stored-cursor path (parse,
validation, windowed fetch). -/
theorem c5_bootstrap (sc : Scraper M D) (env : Env) (st : Stores D) (l : List Status)
    (hprobe : env.getUserTimeline none 1 = Except.ok l)
    (hnone : st.since_id = none) :
    (l = [] → process sc env st = (Except.error RunErr.bootstrapEmpty, st)) ∧
    (∀ t ts, l = t :: ts →
      process sc env st =
        processStored sc env
          { st with since_id := some (toString ((pyMaxBy Status.id t ts).id)) }) := by
  unfold process
  rw [hprobe]
  simp only [hnone, Option.isSome_none]
  constructor
  · intro he
    subst he
    simp
  · intro t ts he
    subst he
    simp

/-- Witness for C5: a fresh identity with an empty upstream timeline fails
fatally at bootstrap; a fresh identity whose timeline returns tweet 500
continues into the stored-cursor path with cursor "500". -/
theorem c5_witness :
    process scSimple envEmptyTL { since_id := none, sink := [] }
      = (Except.error RunErr.bootstrapEmpty, { since_id := none, sink := [] }) ∧
    process scSimple envLive { since_id := none, sink := [] }
      = processStored scSimple envLive { since_id := some ("500"), sink := [] } := by
  constructor
  · exact (c5_bootstrap scSimple envEmptyTL _ [] rfl rfl).1 rfl
  · exact (c5_bootstrap scSimple envLive _ [{ id := 500 }] rfl rfl).2 { id := 500 } [] rfl

/-- C6 counterexample: a fatal run that does commit cursor state.  Starting
with no stored cursor, the bootstrap succeeds and writes "100"; the
subsequent since-window fetch raises and the run terminates fatally, yet
the stored cursor at the end is "100", not the absent value it started
with. -/
theorem c6_counterexample :
    process scSimple envC6x { since_id := none, sink := [] }
      = (Except.error (RunErr.twitter { msg := ("Over capacity") }),
         { since_id := some ("100"), sink := [] }) ∧
    (some ("100") : Option String) ≠ none := by
  exact ⟨rfl, by decide⟩

/-- C6 (amended): fatal-path atomicity holds for every run that starts with
a stored cursor (such a run never writes the stores at all), and on a
fresh identity for the probe-failure and bootstrap-empty fatal paths; but
a fatal error after a successful bootstrap leaves the newly written
bootstrap cursor committed. -/
theorem c6_fatal_state_frame (sc : Scraper M D) (env : Env) (st : Stores D) :
    (st.since_id.isSome = true → (process sc env st).2 = st) ∧
    (∀ te, env.getUserTimeline none 1 = Except.error te →
      (process sc env st).2 = st) ∧
    (st.since_id = none → env.getUserTimeline none 1 = Except.ok [] →
      (process sc env st).2 = st) := by
  refine ⟨?_, ?_, ?_⟩
  · intro h
    unfold process
    cases hp : env.getUserTimeline none 1 with
    | error te => by_cases ha : isNotAuthorized te <;> simp [ha]
    | ok l => simp [h, processStored_state]
  · intro te hp
    unfold process
    rw [hp]
    by_cases ha : isNotAuthorized te <;> simp [ha]
  · intro h0 hp
    unfold process
    rw [hp]
    simp [h0]

/-- Witness for the amended C6: three concrete fatal runs (since-window
fetch failure with a stored cursor, probe failure, bootstrap-empty) each
end with the stores they started with. -/
theorem c6_fatal_state_frame_witness :
    (process scSimple envC6x { since_id := some ("7"), sink := [] }).2
      = { since_id := some ("7"), sink := [] } ∧
    (process scSimple envOtherErr { since_id := none, sink := ([] : List Doc0) }).2
      = { since_id := none, sink := [] } ∧
    (process scSimple envEmptyTL { since_id := none, sink := ([] : List Doc0) }).2
      = { since_id := none, sink := [] } := by
  refine ⟨(c6_fatal_state_frame scSimple envC6x _).1 rfl,
          (c6_fatal_state_frame scSimple envOtherErr _).2.1 _ rfl,
          (c6_fatal_state_frame scSimple envEmptyTL _).2.2 rfl rfl⟩

/-- C7 counterexample: a run whose selected fetch window yields zero items
but which does change the stored cursor.  On a fresh identity the
bootstrap writes "100"; the since window then returns no tweets, the run
ends with an empty output set — and the stored cursor went from absent to
"100" during the run. -/
theorem c7_counterexample :
    process scSimple envC7x { since_id := none, sink := [] }
      = (Except.ok [], { since_id := some ("100"), sink := [] }) ∧
    (some ("100") : Option String) ≠ none := by
  exact ⟨rfl, by decide⟩

/-- C7 (amended): for every run that starts with a stored, parseable cursor,
if the SELECTED fetch window yields zero items the run ends immediately
with an empty output set and the stores (cursor and sink) unchanged, for
every scraper instance — extraction is never consulted.  With a live
cursor only the since window matters (the recent timeline may well be
nonempty); with a stale cursor only the recent window matters.  (On a
fresh identity the bootstrap write still occurs before the empty fetch.) -/
theorem c7_empty_fetch_noop (sc : Scraper M D) (env : Env) (st : Stores D)
    (s : String) (n : Int) (l : List Status)
    (hprobe : env.getUserTimeline none 1 = Except.ok l)
    (hst : st.since_id = some s)
    (hparse : pyInt s = some n) :
    (∀ stat, env.getStatus n = Except.ok stat →
      env.getUserTimeline (some n) 200 = Except.ok [] →
      process sc env st = (Except.ok [], st)) ∧
    (∀ te, env.getStatus n = Except.error te →
      env.getUserTimeline none 200 = Except.ok [] →
      process sc env st = (Except.ok [], st)) := by
  unfold process processStored
  rw [hprobe]
  simp only [hst, Option.isSome_some, Option.getD_some, if_true, hparse]
  unfold processWithSince
  constructor
  · intro stat hg hw
    rw [hg, hw]
    rfl
  · intro te hg hw
    rw [hg, hw]
    rfl

/-- Witness for the amended C7: with stored cursor "100" and a live point
lookup, an empty since window ends the run as a stores no-op even though
the recent timeline is nonempty; with a stale cursor, an empty recent
window does the same even though the since window is nonempty. -/
theorem c7_empty_fetch_noop_witness :
    process scSimple envC7x { since_id := some ("100"), sink := [] }
      = (Except.ok [], { since_id := some ("100"), sink := [] }) ∧
    process scSimple envStaleEmpty { since_id := some ("100"), sink := [] }
      = (Except.ok [], { since_id := some ("100"), sink := [] }) := by
  constructor
  · exact (c7_empty_fetch_noop scSimple envC7x _ ("100") 100 [{ id := 100 }]
      rfl rfl (by decide)).1 { id := 100 } rfl rfl
  · exact (c7_empty_fetch_noop scSimple envStaleEmpty _ ("100") 100 [{ id := 100 }]
      rfl rfl (by decide)).2 { msg := ("No status found with that ID.") } rfl rfl

/-- C8: Empty-output no-op.  `post_process` on an empty document set returns
the stores exactly as given (no metadata write), and on a nonempty set it
performs the one metadata write, setting the cursor from the
maximum-timestamp document — so the cursor write happens iff the output
set is nonempty. -/
theorem c8_empty_output_noop (sc : Scraper M D) (st : Stores D) (docs : List D) :
    (docs = [] → post_process sc st docs = st) ∧
    (∀ d ds, docs = d :: ds →
      post_process sc st docs =
        { st with
          since_id :=
            some (sc.document_to_id
              (pyMaxBy sc.document_to_created_at_in_seconds d ds)) }) := by
  constructor
  · intro h
    subst h
    rfl
  · intro d ds h
    subst h
    rfl

/-- Witness for C8: an empty document set leaves the stores untouched; a
one-document set writes that document's identifier. -/
theorem c8_empty_output_noop_witness :
    post_process scSimple { since_id := some ("1"), sink := [] } ([] : List Doc0)
      = { since_id := some ("1"), sink := [] } ∧
    post_process scSimple { since_id := some ("1"), sink := [] }
        [{ url := ("u"), tid := 9, ts := 3 }]
      = { since_id := some ("9"), sink := [] } := by
  constructor
  · exact (c8_empty_output_noop scSimple _ _).1 rfl
  · exact (c8_empty_output_noop scSimple { since_id := some ("1"), sink := [] } _).2
      { url := ("u"), tid := 9, ts := 3 } [] rfl

/-- C9 counterexample: no per-item isolation.  The since window returns
tweets 1 and 2; `extract_media` raises on tweet 1 and would succeed on
tweet 2, but the whole run terminates fatally and tweet 2's document never
appears in any output. -/
theorem c9_counterexample :
    process scBadItem envC9x { since_id := some ("0"), sink := [] }
      = (Except.error (RunErr.extractionError ("malformed entities")),
         { since_id := some ("0"), sink := [] }) ∧
    scBadItem.extract_media { id := 2 }
      = Except.ok [{ url := ("u"), tid := 2, ts := 2 }] := by
  exact ⟨rfl, rfl⟩

/-- C9 (amended): no per-item isolation, at any position and from either
hook.  If every item before some malformed item extracts cleanly and that
item raises — from `extract_media` or from `media_list_to_documents`
(`extractOne` covers both) — then the extraction loop returns that error
whatever the remaining items are, and the whole run of `process` (on a
stored, parseable cursor, through whichever window the validation
selects) terminates fatally with that error and no documents. -/
theorem c9_extraction_aborts (sc : Scraper M D) (env : Env) (st : Stores D)
    (s : String) (n : Int) (l ts1 : List Status) (t : Status)
    (ts2 : List Status) (e : String)
    (hprobe : env.getUserTimeline none 1 = Except.ok l)
    (hst : st.since_id = some s)
    (hparse : pyInt s = some n)
    (hok : ∀ t1 ∈ ts1, ∃ ds, extractOne sc t1 = Except.ok ds)
    (hbad : extractOne sc t = Except.error e) :
    (∀ acc, extractAll sc (ts1 ++ t :: ts2) acc
        = Except.error (RunErr.extractionError e)) ∧
    (∀ stat, env.getStatus n = Except.ok stat →
      env.getUserTimeline (some n) 200 = Except.ok (ts1 ++ t :: ts2) →
      process sc env st = (Except.error (RunErr.extractionError e), st)) ∧
    (∀ te, env.getStatus n = Except.error te →
      env.getUserTimeline none 200 = Except.ok (ts1 ++ t :: ts2) →
      process sc env st = (Except.error (RunErr.extractionError e), st)) := by
  have hA : ∀ ts0 : List Status,
      (∀ t1 ∈ ts0, ∃ ds, extractOne sc t1 = Except.ok ds) →
      ∀ acc, extractAll sc (ts0 ++ t :: ts2) acc
        = Except.error (RunErr.extractionError e) := by
    intro ts0
    induction ts0 with
    | nil =>
      intro _ acc
      simp only [List.nil_append]
      unfold extractOne at hbad
      unfold extractAll
      cases hm : sc.extract_media t with
      | error e0 =>
        rw [hm] at hbad
        simp at hbad
        simp [hbad]
      | ok media =>
        rw [hm] at hbad
        simp at hbad
        simp [hbad]
    | cons t1 rest ih =>
      intro hok0 acc
      obtain ⟨ds1, hds1⟩ := hok0 t1 (List.mem_cons_self _ _)
      unfold extractOne at hds1
      simp only [List.cons_append]
      unfold extractAll
      cases hm : sc.extract_media t1 with
      | error e0 =>
        rw [hm] at hds1
        simp at hds1
      | ok media =>
        rw [hm] at hds1
        simp at hds1
        simp [hds1]
        exact ih (fun x hx => hok0 x (List.mem_cons_of_mem _ hx)) (acc ++ ds1)
  have hne : (ts1 ++ t :: ts2).isEmpty = false := by
    cases ts1 <;> rfl
  refine ⟨hA ts1 hok, ?_, ?_⟩
  · intro stat hg hw
    unfold process processStored
    rw [hprobe]
    simp only [hst, Option.isSome_some, Option.getD_some, if_true, hparse]
    unfold processWithSince
    rw [hg, hw]
    simp [processTweets, hne, hA ts1 hok []]
  · intro te hg hw
    unfold process processStored
    rw [hprobe]
    simp only [hst, Option.isSome_some, Option.getD_some, if_true, hparse]
    unfold processWithSince
    rw [hg, hw]
    simp [processTweets, hne, hA ts1 hok []]

/-- Witness for the amended C9: a `media_list_to_documents` exception on the
SECOND fetched item (tweet 1, after tweet 2 extracted cleanly) aborts the
loop and the whole run, both through a live since window and through the
stale-cursor recent window. -/
theorem c9_extraction_aborts_witness :
    extractAll scBadMedia [{ id := 2 }, { id := 1 }] []
      = Except.error (RunErr.extractionError ("no media entities")) ∧
    process scBadMedia envC9y { since_id := some ("0"), sink := [] }
      = (Except.error (RunErr.extractionError ("no media entities")),
         { since_id := some ("0"), sink := [] }) ∧
    process scBadMedia envC9stale { since_id := some ("0"), sink := [] }
      = (Except.error (RunErr.extractionError ("no media entities")),
         { since_id := some ("0"), sink := [] }) := by
  have hok : ∀ t1 ∈ [({ id := 2 } : Status)],
      ∃ ds, extractOne scBadMedia t1 = Except.ok ds := by
    intro t1 ht1
    rcases List.mem_cons.mp ht1 with h | h
    · refine ⟨[{ url := ("u"), tid := 2, ts := 2 }], ?_⟩
      rw [h]
      rfl
    · exact absurd h (List.not_mem_nil _)
  refine ⟨?_, ?_, ?_⟩
  · exact (c9_extraction_aborts scBadMedia envC9y
      { since_id := some ("0"), sink := [] } ("0") 0 [{ id := 2 }]
      [{ id := 2 }] { id := 1 } [] _ rfl rfl (by decide) hok rfl).1 []
  · exact (c9_extraction_aborts scBadMedia envC9y
      { since_id := some ("0"), sink := [] } ("0") 0 [{ id := 2 }]
      [{ id := 2 }] { id := 1 } [] _ rfl rfl (by decide) hok rfl).2.1
      { id := 0 } rfl rfl
  · exact (c9_extraction_aborts scBadMedia envC9stale
      { since_id := some ("0"), sink := [] } ("0") 0 [{ id := 2 }]
      [{ id := 2 }] { id := 1 } [] _ rfl rfl (by decide) hok rfl).2.2
      { msg := ("No status found with that ID.") } rfl rfl

/-- C1 counterexample: a stale-cursor fallback run that decreases the
cursor.  With stored cursor "500" the point lookup fails, the unbounded
recent window returns tweet 400, the run outputs tweet 400's document, and
`post_process` overwrites the cursor with "400", whose ordinal 400 is
smaller than the previously stored 500. -/
theorem c1_counterexample :
    process scSimple envC1x { since_id := some ("500"), sink := [] }
      = (Except.ok [{ url := ("u"), tid := 400, ts := 400 }],
         { since_id := some ("500"), sink := [] }) ∧
    post_process scSimple { since_id := some ("500"), sink := [] }
        [{ url := ("u"), tid := 400, ts := 400 }]
      = { since_id := some ("400"), sink := [] } ∧
    pyInt ("400") = some 400 ∧ pyInt ("500") = some 500 ∧ (400 : Int) < 500 := by
  refine ⟨rfl, rfl, by decide, by decide, by decide⟩

/-- C1 (amended): `post_process` writes the new cursor unconditionally (it
never compares against the stored value), so monotonicity holds exactly
when every output document's identifier parses to an ordinal at least the
reference value: the advanced cursor is the identifier of one of the
output documents, hence it then also parses to an ordinal at least the
reference.  On the since-window path with an extractor whose document
identifiers are the (strictly newer) tweet ordinals this yields
non-decreasing cursors; on the stale-cursor fallback path the premise can
fail and the cursor can decrease. -/
theorem c1_monotonic_when_ids_dominate (sc : Scraper M D) (st : Stores D)
    (n : Int) (d : D) (ds : List D)
    (hall : ∀ x ∈ d :: ds, ∃ m : Int,
      pyInt (sc.document_to_id x) = some m ∧ n ≤ m) :
    ∃ m : Int,
      pyInt (((post_process sc st (d :: ds)).since_id).getD "") = some m ∧
        n ≤ m := by
  have hmem := pyMaxBy_mem sc.document_to_created_at_in_seconds d ds
  have h := hall _ hmem
  simpa [post_process] using h

/-- Witness for the amended C1: reference ordinal 500, two documents with
identifiers "600" and "700"; the advanced cursor parses to an ordinal of
at least 500. -/
theorem c1_monotonic_when_ids_dominate_witness :
    ∃ m : Int,
      pyInt (((post_process scSimple { since_id := some ("500"), sink := [] }
        [{ url := ("u"), tid := 600, ts := 10 },
         { url := ("u"), tid := 700, ts := 10 }]).since_id).getD "")
        = some m ∧ (500 : Int) ≤ m := by
  refine c1_monotonic_when_ids_dominate scSimple _ 500 _ _ ?_
  intro x hx
  rcases List.mem_cons.mp hx with h | h
  · refine ⟨600, ?_, by decide⟩
    rw [h]
    decide
  · rcases List.mem_cons.mp h with h2 | h2
    · refine ⟨700, ?_, by decide⟩
      rw [h2]
      decide
    · exact absurd h2 (List.not_mem_nil _)

/-- C2 counterexample: documents with tied timestamps are NOT resolved by
the larger intrinsic ordinal.  Both documents have timestamp 10; listed
as ordinal 7 before ordinal 9, `post_process` stores "7" (the smaller
ordinal, first in list order); listed the other way round, it stores "9".
The tie is broken by list position, not by the ordinal. -/
theorem c2_counterexample :
    post_process scSimple { since_id := some ("1"), sink := [] }
        [{ url := ("u"), tid := 7, ts := 10 }, { url := ("u"), tid := 9, ts := 10 }]
      = { since_id := some ("7"), sink := [] } ∧
    post_process scSimple { since_id := some ("1"), sink := [] }
        [{ url := ("u"), tid := 9, ts := 10 }, { url := ("u"), tid := 7, ts := 10 }]
      = { since_id := some ("9"), sink := [] } ∧
    (7 : Int) < 9 := by
  refine ⟨rfl, rfl, by decide⟩

/-- C2 (amended): for EVERY nonempty output set, `post_process` takes the
cursor from the first document in list order attaining the maximum
creation timestamp: the stored value is `document_to_id` of the selected
document, the selected document's timestamp is maximal, and the output
list splits around it with every earlier document strictly smaller in
timestamp — so whenever two (or more) documents share the maximum
timestamp, the earliest of them in list order is chosen.  The selection
is a pure function of the list (deterministic and reproducible), but it
is positional — driven by insertion order — not by the Raw Item's
intrinsic ordinal. -/
theorem c2_tie_breaks_by_position (sc : Scraper M D) (st : Stores D)
    (d : D) (ds : List D) :
    post_process sc st (d :: ds)
      = { st with
          since_id := some (sc.document_to_id
            (pyMaxBy sc.document_to_created_at_in_seconds d ds)) } ∧
    (∀ x ∈ d :: ds, sc.document_to_created_at_in_seconds x
        ≤ sc.document_to_created_at_in_seconds
          (pyMaxBy sc.document_to_created_at_in_seconds d ds)) ∧
    ∃ l1 l2,
      d :: ds = l1 ++ pyMaxBy sc.document_to_created_at_in_seconds d ds :: l2 ∧
      ∀ x ∈ l1, sc.document_to_created_at_in_seconds x
          < sc.document_to_created_at_in_seconds
            (pyMaxBy sc.document_to_created_at_in_seconds d ds) :=
  ⟨rfl, pyMaxBy_le sc.document_to_created_at_in_seconds d ds,
    pyMaxBy_first sc.document_to_created_at_in_seconds d ds⟩

/-- Witness for the amended C2: in a three-document set whose second and
third documents share the maximum timestamp 10 with ordinals 7 and 9 in
that order, the cursor comes from the earlier tied document, ordinal 7. -/
theorem c2_tie_breaks_by_position_witness :
    post_process scSimple { since_id := none, sink := [] }
        [{ url := ("u"), tid := 5, ts := 3 },
         { url := ("u"), tid := 7, ts := 10 },
         { url := ("u"), tid := 9, ts := 10 }]
      = { since_id := some ("7"), sink := [] } :=
  (c2_tie_breaks_by_position scSimple { since_id := none, sink := [] }
    { url := ("u"), tid := 5, ts := 3 }
    [{ url := ("u"), tid := 7, ts := 10 }, { url := ("u"), tid := 9, ts := 10 }]).1

/-- C10: Implicit cursor-format precondition.  After `post_process` advances
the cursor, the stored value is exactly the string returned by
`document_to_id` on the selected document; the next run (with a
successful probe) parses that stored string with `int(...)` before the
point lookup: if the parse fails the run terminates with the fatal parse
error and touches nothing, and if it yields `n` the run proceeds into
validation and fetching with exactly `n` — so the follow-up run avoids a
parse failure precisely when `document_to_id` returned a decimal-integer
string. -/
theorem c10_cursor_format (sc : Scraper M D) (env : Env) (st : Stores D)
    (d : D) (ds : List D) :
    (post_process sc st (d :: ds)).since_id
      = some (sc.document_to_id (pyMaxBy sc.document_to_created_at_in_seconds d ds)) ∧
    (∀ l, env.getUserTimeline none 1 = Except.ok l →
      pyInt (sc.document_to_id (pyMaxBy sc.document_to_created_at_in_seconds d ds))
          = none →
      process sc env (post_process sc st (d :: ds))
        = (Except.error (RunErr.parseFailure
            (sc.document_to_id (pyMaxBy sc.document_to_created_at_in_seconds d ds))),
           post_process sc st (d :: ds))) ∧
    (∀ l n, env.getUserTimeline none 1 = Except.ok l →
      pyInt (sc.document_to_id (pyMaxBy sc.document_to_created_at_in_seconds d ds))
          = some n →
      process sc env (post_process sc st (d :: ds))
        = processWithSince sc env (post_process sc st (d :: ds)) n) := by
  refine ⟨rfl, ?_, ?_⟩
  · intro l hprobe hparse
    unfold process processStored
    rw [hprobe]
    simp [post_process, hparse]
  · intro l n hprobe hparse
    unfold process processStored
    rw [hprobe]
    simp [post_process, hparse]

/-- Witness for C10: a scraper whose `document_to_id` returns the
non-numeric string "abc" stores exactly "abc", and the follow-up run fails
with the fatal parse error; with the numeric identifier "5" the follow-up
run proceeds into validation with 5. -/
theorem c10_cursor_format_witness :
    (post_process scBadId { since_id := some ("1"), sink := [] }
        [{ url := ("abc"), tid := 5, ts := 5 }]).since_id = some ("abc") ∧
    process scBadId envLive
        (post_process scBadId { since_id := some ("1"), sink := [] }
          [{ url := ("abc"), tid := 5, ts := 5 }])
      = (Except.error (RunErr.parseFailure ("abc")),
         post_process scBadId { since_id := some ("1"), sink := [] }
           [{ url := ("abc"), tid := 5, ts := 5 }]) ∧
    process scSimple envLive
        (post_process scSimple { since_id := some ("1"), sink := [] }
          [{ url := ("u"), tid := 5, ts := 5 }])
      = processWithSince scSimple envLive
          (post_process scSimple { since_id := some ("1"), sink := [] }
            [{ url := ("u"), tid := 5, ts := 5 }]) 5 := by
  refine ⟨?_, ?_, ?_⟩
  · exact (c10_cursor_format scBadId envLive _ _ []).1
  · exact (c10_cursor_format scBadId envLive _ _ []).2.1 [{ id := 500 }] rfl (by decide)
  · exact (c10_cursor_format scSimple envLive _ _ []).2.2 [{ id := 500 }] 5 rfl (by decide)
